import Mathlib

/-!
Verification of the `gzap` configuration module (`config.go`).

The module resolves logging configuration either from environment
variables (`EnvConfig`) or from a pre-populated record (`CfgConfig`).
We embed the Go code shallowly:

* the process environment is a total function from variable names to
  string values; Go's `os.Getenv` returns `""` for an unset variable,
  so an unset variable and a variable set to the empty string are the
  same input, exactly as in the Go code;
* a Go `panic` becomes an `Except String` error carrying the panic
  message, so queries that can abort return `Except String α`;
* `strconv.ParseUint(s, 10, 32)` / `strconv.ParseInt(s, 10, 32)` are
  modelled by executable partial parsers returning `Option`;
* `time.Duration` is its underlying count of nanoseconds (`Int`),
  with `timeSecond = 10^9` mirroring `time.Second`.
-/

namespace Gzap

/- The go-graylog dependency (github.com/Devatoria/go-graylog) declares
`type Transport string` with the two constants below; `config.go` imports
them as `graylog.TCP` and `graylog.UDP`. -/
namespace graylog

abbrev Transport := String

def UDP : Transport := "udp"

def TCP : Transport := "tcp"

end graylog

/-- `const tlsTransport = "tls"` from config.go line 13. -/
def tlsTransport : String := "tls"

/-- The process environment: `os.Getenv` as a total function, with `""`
denoting an unset variable (Go's `os.Getenv` behaviour). -/
abbrev Env := String → String

/-- `time.Duration` is an integer count of nanoseconds. -/
abbrev Duration := Int

/-- `time.Second`: one second in nanoseconds. -/
def timeSecond : Duration := 1000000000

/-- Numeric value of a list of decimal digits (used only under an
all-digits guard), scanning left to right as Go's strconv does. -/
def digitsVal (l : List Char) : Nat :=
  l.foldl (fun a c => a * 10 + (c.toNat - 48)) 0

/-- `strconv.ParseUint(s, 10, 32)`: no sign prefix permitted, at least
one character, all characters decimal digits, value within 32 bits; any
violation makes Go return a non-nil error (which config.go turns into a
panic). We scan the string's character list. -/
def parseUint10_32 (s : String) : Option Nat :=
  if s.data ≠ [] ∧ s.data.all Char.isDigit then
    if digitsVal s.data ≤ 2 ^ 32 - 1 then some (digitsVal s.data) else none
  else none

/-- `strconv.ParseInt(s, 10, 32)`: optional `+`/`-` sign, at least one
digit, all remaining characters decimal digits, value within the signed
32-bit range; any violation yields a non-nil error. -/
def parseInt10_32 (s : String) : Option Int :=
  match s.data with
  | [] => none
  | c :: rest =>
    let sign : Int := if c = '-' then -1 else 1
    let digits := if c = '-' ∨ c = '+' then rest else c :: rest
    if digits ≠ [] ∧ digits.all Char.isDigit then
      let v : Int := sign * (digitsVal digits : Nat)
      if -(2 ^ 31) ≤ v ∧ v ≤ 2 ^ 31 - 1 then some v else none
    else none

/- `EnvConfig` is an empty struct; its queries read the environment, so
we model each method as a function of the environment. -/
namespace EnvConfig

/-- `(*EnvConfig).enableJSONFormatter`, config.go lines 36-42. -/
def enableJSONFormatter (env : Env) : Bool :=
  let jsonFormatter := env "ENABLE_DATADOG_JSON_FORMATTER"
  if jsonFormatter = "true" then true else false

/-- `EnvConfig.getGraylogAppName`, config.go lines 44-51; the `panic`
becomes an `Except.error` carrying the panic message. -/
def getGraylogAppName (env : Env) : Except String String :=
  let appName := env "GRAYLOG_APP_NAME"
  if appName = "" then Except.error "GRAYLOG_APP_NAME env not set"
  else Except.ok appName

/-- `(*EnvConfig).getGraylogHandlerType`, config.go lines 53-72: the Go
zero value of `transportType` is the empty string; the three `if`
statements update it in order. -/
def getGraylogHandlerType (env : Env) : graylog.Transport :=
  let defaultHandlerType := tlsTransport
  let handlerType := env "GRAYLOG_HANDLER_TYPE"
  let transportType : graylog.Transport := ""
  let transportType :=
    if handlerType = tlsTransport then graylog.TCP else transportType
  let transportType :=
    if (handlerType : graylog.Transport) = graylog.UDP then graylog.UDP
    else transportType
  -- If no transport type is set use tls by default.
  let transportType :=
    if transportType = "" then (defaultHandlerType : graylog.Transport)
    else transportType
  transportType

/-- `(*EnvConfig).getGraylogHost`, config.go lines 74-77. -/
def getGraylogHost (env : Env) : String :=
  env "GRAYLOG_HOST"

/-- `(*EnvConfig).getGraylogPort`, config.go lines 79-96: `portString`
starts as `"12201"`, is replaced by the UDP- or TLS-port variable
depending on the resolved handler type, then parsed; a parse error
panics. -/
def getGraylogPort (env : Env) : Except String Nat :=
  let portString := "12201"
  let portString :=
    if getGraylogHandlerType env = graylog.UDP then env "GRAYLOG_UDP_PORT"
    else portString
  let portString :=
    if getGraylogHandlerType env = graylog.TCP then env "GRAYLOG_TLS_PORT"
    else portString
  match parseUint10_32 portString with
  | none => Except.error ("could not properly parse Graylog port: " ++ portString)
  | some port => Except.ok port

/-- `(*EnvConfig).getGraylogLogLevel`, config.go lines 98-107. -/
def getGraylogLogLevel (env : Env) : Except String Nat :=
  let s := env "GRAYLOG_LOG_LEVEL"
  match parseUint10_32 s with
  | none => Except.error ("could not properly parse Graylog LogLevel: " ++ s)
  | some level => Except.ok level

/-- `(*EnvConfig).getGraylogTLSTimeout`, config.go lines 109-123. -/
def getGraylogTLSTimeout (env : Env) : Except String Duration :=
  let defaultTimeout := timeSecond * 3
  let timeoutString := env "GRAYLOG_TLS_TIMEOUT_SECS"
  if timeoutString = "" then Except.ok defaultTimeout
  else
    match parseInt10_32 timeoutString with
    | none => Except.error "invalid GRAYLOG_TLS_TIMEOUT_SECS could not parse int"
    | some timeoutSeconds => Except.ok (timeSecond * timeoutSeconds)

/-- `(*EnvConfig).getGraylogLogEnvName`, config.go lines 125-132. -/
def getGraylogLogEnvName (env : Env) : Except String String :=
  let envName := env "GRAYLOG_ENV"
  if envName = "" then Except.error "GRAYLOG_ENV not set"
  else Except.ok envName

/-- `(*EnvConfig).getGraylogSkipInsecureSkipVerify`, config.go 134-141. -/
def getGraylogSkipInsecureSkipVerify (env : Env) : Bool :=
  let skipInsecure := env "GRAYLOG_SKIP_TLS_VERIFY"
  if skipInsecure = "true" then true else false

/-- `(*EnvConfig).useTLS`, config.go lines 152-163: panics when the
transport-selector variable is empty. -/
def useTLS (env : Env) : Except String Bool :=
  let handlerType := env "GRAYLOG_HANDLER_TYPE"
  if handlerType = "" then Except.error "GRAYLOG_HANDLER_TYPE env not set"
  else if handlerType = tlsTransport then Except.ok true
  else Except.ok false

/-- `(*EnvConfig).useColoredConsolelogs`, config.go lines 165-173. The
source comment reads "If the env level is not set use colored logs."
but the code compares against the literal `"0"`. -/
def useColoredConsolelogs (env : Env) : Bool :=
  let envLevel := env "THEMUSE_ENV_LEVEL"
  if envLevel = "0" then true else false

end EnvConfig

/-- `CfgConfig`, config.go lines 176-186 (field name `HanlderType` is
spelled as in the source). -/
structure CfgConfig where
  EnableJSONFormatter : Bool
  AppName : String
  EnvName : String
  HanlderType : String
  Host : String
  UDPPort : Nat
  TLSPort : Nat
  TLSTimeoutSeconds : String
  LogLevel : Nat
deriving DecidableEq, Repr

/-- `NewDefaultCfgConfig`, config.go lines 188-201. -/
def NewDefaultCfgConfig : CfgConfig :=
  { EnableJSONFormatter := true
    AppName := "pracing"
    EnvName := "pracing"
    HanlderType := "udp"
    Host := "127.0.0.1"
    UDPPort := 12001
    TLSPort := 12001
    TLSTimeoutSeconds := "3"
    LogLevel := 4 }

namespace CfgConfig

/-- `(*CfgConfig).enableJSONFormatter`, config.go lines 203-205. -/
def enableJSONFormatter (e : CfgConfig) : Bool :=
  e.EnableJSONFormatter

/-- `(*CfgConfig).getGraylogAppName`, config.go lines 207-209: returns
the field unconditionally, with no empty-string check. -/
def getGraylogAppName (e : CfgConfig) : String :=
  e.AppName

/-- `(*CfgConfig).getGraylogHandlerType`, config.go lines 211-230: same
body as the EnvConfig method, reading the record field instead. -/
def getGraylogHandlerType (e : CfgConfig) : graylog.Transport :=
  let defaultHandlerType := tlsTransport
  let handlerType := e.HanlderType
  let transportType : graylog.Transport := ""
  let transportType :=
    if handlerType = tlsTransport then graylog.TCP else transportType
  let transportType :=
    if (handlerType : graylog.Transport) = graylog.UDP then graylog.UDP
    else transportType
  -- If no transport type is set use tls by default.
  let transportType :=
    if transportType = "" then (defaultHandlerType : graylog.Transport)
    else transportType
  transportType

/-- `(*CfgConfig).getGraylogHost`, config.go lines 232-234. -/
def getGraylogHost (e : CfgConfig) : String :=
  e.Host

/-- `(*CfgConfig).getGraylogPort`, config.go lines 236-246. -/
def getGraylogPort (e : CfgConfig) : Nat :=
  if e.getGraylogHandlerType = graylog.UDP then e.UDPPort
  else if e.getGraylogHandlerType = graylog.TCP then e.TLSPort
  else 12001

/-- `(*CfgConfig).getGraylogLogLevel`, config.go lines 248-250. -/
def getGraylogLogLevel (e : CfgConfig) : Nat :=
  e.LogLevel

/-- `(*CfgConfig).getGraylogTLSTimeout`, config.go lines 252-266. -/
def getGraylogTLSTimeout (e : CfgConfig) : Except String Duration :=
  let defaultTimeout := timeSecond * 3
  let timeoutString := e.TLSTimeoutSeconds
  if timeoutString = "" then Except.ok defaultTimeout
  else
    match parseInt10_32 timeoutString with
    | none => Except.error "invalid GRAYLOG_TLS_TIMEOUT_SECS could not parse int"
    | some timeoutSeconds => Except.ok (timeSecond * timeoutSeconds)

/-- `(*CfgConfig).getGraylogLogEnvName`, config.go lines 268-270. -/
def getGraylogLogEnvName (e : CfgConfig) : String :=
  e.EnvName

/-- `(*CfgConfig).getGraylogSkipInsecureSkipVerify`, config.go 272-274. -/
def getGraylogSkipInsecureSkipVerify (_e : CfgConfig) : Bool :=
  false

/-- `(*CfgConfig).useTLS`, config.go lines 285-296: panics (with the
same message as the EnvConfig method) when the handler-type field is
empty. -/
def useTLS (e : CfgConfig) : Except String Bool :=
  let handlerType := e.HanlderType
  if handlerType = "" then Except.error "GRAYLOG_HANDLER_TYPE env not set"
  else if handlerType = tlsTransport then Except.ok true
  else Except.ok false

/-- `(*CfgConfig).useColoredConsolelogs`, config.go lines 298-300. -/
def useColoredConsolelogs (_e : CfgConfig) : Bool :=
  false

end CfgConfig

/-!
Helper lemmas: case characterizations of the handler-type, useTLS and
timeout queries, shared by the claim theorems below.
-/

/-- The EnvConfig handler type is UDP exactly on "udp", TCP exactly on
"tls", and the raw default string "tls" on every other value. -/
theorem envHandlerType_cases (env : Env) :
    EnvConfig.getGraylogHandlerType env =
      if env "GRAYLOG_HANDLER_TYPE" = "udp" then graylog.UDP
      else if env "GRAYLOG_HANDLER_TYPE" = "tls" then graylog.TCP
      else "tls" := by
  by_cases h1 : env "GRAYLOG_HANDLER_TYPE" = "udp" <;>
    by_cases h2 : env "GRAYLOG_HANDLER_TYPE" = "tls" <;>
      simp_all [EnvConfig.getGraylogHandlerType, tlsTransport, graylog.UDP,
        graylog.TCP]

/-- The CfgConfig handler type is UDP exactly on "udp", TCP exactly on
"tls", and the raw default string "tls" on every other field value. -/
theorem cfgHandlerType_cases (cfg : CfgConfig) :
    CfgConfig.getGraylogHandlerType cfg =
      if cfg.HanlderType = "udp" then graylog.UDP
      else if cfg.HanlderType = "tls" then graylog.TCP
      else "tls" := by
  by_cases h1 : cfg.HanlderType = "udp" <;>
    by_cases h2 : cfg.HanlderType = "tls" <;>
      simp_all [CfgConfig.getGraylogHandlerType, tlsTransport, graylog.UDP,
        graylog.TCP]

/-- EnvConfig.useTLS errors on the empty selector and otherwise decides
equality with "tls". -/
theorem envUseTLS_cases (env : Env) :
    EnvConfig.useTLS env =
      if env "GRAYLOG_HANDLER_TYPE" = "" then
        Except.error "GRAYLOG_HANDLER_TYPE env not set"
      else Except.ok (decide (env "GRAYLOG_HANDLER_TYPE" = "tls")) := by
  by_cases h0 : env "GRAYLOG_HANDLER_TYPE" = "" <;>
    by_cases h1 : env "GRAYLOG_HANDLER_TYPE" = "tls" <;>
      simp_all [EnvConfig.useTLS, tlsTransport]

/-- CfgConfig.useTLS errors on the empty field and otherwise decides
equality with "tls". -/
theorem cfgUseTLS_cases (cfg : CfgConfig) :
    CfgConfig.useTLS cfg =
      if cfg.HanlderType = "" then
        Except.error "GRAYLOG_HANDLER_TYPE env not set"
      else Except.ok (decide (cfg.HanlderType = "tls")) := by
  by_cases h0 : cfg.HanlderType = "" <;>
    by_cases h1 : cfg.HanlderType = "tls" <;>
      simp_all [CfgConfig.useTLS, tlsTransport]

/-- Unfolding of EnvConfig.getGraylogTLSTimeout. -/
theorem envTimeout_cases (env : Env) :
    EnvConfig.getGraylogTLSTimeout env =
      if env "GRAYLOG_TLS_TIMEOUT_SECS" = "" then Except.ok (timeSecond * 3)
      else
        match parseInt10_32 (env "GRAYLOG_TLS_TIMEOUT_SECS") with
        | none => Except.error "invalid GRAYLOG_TLS_TIMEOUT_SECS could not parse int"
        | some timeoutSeconds => Except.ok (timeSecond * timeoutSeconds) :=
  rfl

/-- Unfolding of CfgConfig.getGraylogTLSTimeout. -/
theorem cfgTimeout_cases (cfg : CfgConfig) :
    CfgConfig.getGraylogTLSTimeout cfg =
      if cfg.TLSTimeoutSeconds = "" then Except.ok (timeSecond * 3)
      else
        match parseInt10_32 cfg.TLSTimeoutSeconds with
        | none => Except.error "invalid GRAYLOG_TLS_TIMEOUT_SECS could not parse int"
        | some timeoutSeconds => Except.ok (timeSecond * timeoutSeconds) :=
  rfl

/-!
Claim theorems.
-/

/-- Claim C1, counterexample: with the transport selector unset (the
empty string, which is what os.Getenv yields for an unset variable) both
adapters return the raw transport value "tls", which is not graylog.TCP
("tcp"); this refutes the claim that every value other than "udp" maps
to graylog.TCP. -/
theorem C1_handler_default_counterexample :
    EnvConfig.getGraylogHandlerType (fun _ => "") ≠ graylog.TCP ∧
    CfgConfig.getGraylogHandlerType
      { NewDefaultCfgConfig with HanlderType := "" } ≠ graylog.TCP := by
  decide

/-- Claim C1 as amended: both getGraylogHandlerType implementations
return graylog.UDP exactly on the value "udp" and graylog.TCP exactly on
"tls"; every other value (including the empty string and unrecognized
strings) yields the raw transport string "tls", a value equal to neither
graylog.UDP nor graylog.TCP. -/
theorem C1_handler_default_amended (env : Env) (cfg : CfgConfig) :
    (EnvConfig.getGraylogHandlerType env =
       if env "GRAYLOG_HANDLER_TYPE" = "udp" then graylog.UDP
       else if env "GRAYLOG_HANDLER_TYPE" = "tls" then graylog.TCP
       else "tls") ∧
    (CfgConfig.getGraylogHandlerType cfg =
       if cfg.HanlderType = "udp" then graylog.UDP
       else if cfg.HanlderType = "tls" then graylog.TCP
       else "tls") ∧
    ("tls" : graylog.Transport) ≠ graylog.UDP ∧
    ("tls" : graylog.Transport) ≠ graylog.TCP :=
  ⟨envHandlerType_cases env, cfgHandlerType_cases cfg, by decide, by decide⟩

/-- Claim C2, code behaviour at the failing input: with every variable
unset, enableJSONFormatter and getGraylogSkipInsecureSkipVerify return
false as claimed, but useColoredConsolelogs also returns false. The code
returns true only when THEMUSE_ENV_LEVEL equals "0", although its own
comment says an unset level should use colored logs, so the claimed
unset-implies-true exception does not hold on the code. -/
theorem C2_unset_boolean_defaults :
    EnvConfig.enableJSONFormatter (fun _ => "") = false ∧
    EnvConfig.getGraylogSkipInsecureSkipVerify (fun _ => "") = false ∧
    EnvConfig.useColoredConsolelogs (fun _ => "") = false := by
  decide

/-- Claim C3, counterexample: CfgConfig.getGraylogAppName performs no
empty-string check; on a record whose AppName field is empty it returns
the empty string instead of aborting. -/
theorem C3_appName_counterexample :
    CfgConfig.getGraylogAppName { NewDefaultCfgConfig with AppName := "" } = "" :=
  rfl

/-- Claim C3 as amended: EnvConfig's appName query aborts with a message
naming GRAYLOG_APP_NAME when the variable is unset or empty and returns
its value otherwise; CfgConfig's appName query returns the record's
AppName field unconditionally, even when it is empty. -/
theorem C3_appName_amended (env : Env) (cfg : CfgConfig) :
    (env "GRAYLOG_APP_NAME" = "" →
        EnvConfig.getGraylogAppName env =
          Except.error "GRAYLOG_APP_NAME env not set") ∧
    (env "GRAYLOG_APP_NAME" ≠ "" →
        EnvConfig.getGraylogAppName env = Except.ok (env "GRAYLOG_APP_NAME")) ∧
    CfgConfig.getGraylogAppName cfg = cfg.AppName := by
  refine ⟨fun h => ?_, fun h => ?_, rfl⟩ <;>
    simp [EnvConfig.getGraylogAppName, h]

/-- Claim C3, witness: the amended theorem applied to the empty
environment. -/
theorem C3_appName_witness :
    EnvConfig.getGraylogAppName (fun _ => "") =
      Except.error "GRAYLOG_APP_NAME env not set" :=
  (C3_appName_amended (fun _ => "") NewDefaultCfgConfig).1 rfl

/-- Claim C4, counterexample: on a record with an empty handler-type
field and ports 5 and 7, CfgConfig.getGraylogPort returns neither
UDPPort nor TLSPort but the fallback 12001, so the fallback branch is
reachable. -/
theorem C4_cfgPort_counterexample :
    CfgConfig.getGraylogPort
        { NewDefaultCfgConfig with HanlderType := "", UDPPort := 5, TLSPort := 7 } ≠
      (5 : Nat) ∧
    CfgConfig.getGraylogPort
        { NewDefaultCfgConfig with HanlderType := "", UDPPort := 5, TLSPort := 7 } ≠
      (7 : Nat) ∧
    CfgConfig.getGraylogPort
        { NewDefaultCfgConfig with HanlderType := "", UDPPort := 5, TLSPort := 7 } =
      12001 := by
  decide

/-- Claim C4 as amended: CfgConfig.getGraylogPort returns UDPPort when
the handler-type field is "udp", TLSPort when it is "tls", and the
fallback 12001 for every other field value (including empty and
unrecognized strings), because the resolved handler type is then the raw
string "tls", which is neither graylog.UDP nor graylog.TCP. -/
theorem C4_cfgPort_amended (cfg : CfgConfig) :
    CfgConfig.getGraylogPort cfg =
      if cfg.HanlderType = "udp" then cfg.UDPPort
      else if cfg.HanlderType = "tls" then cfg.TLSPort
      else 12001 := by
  unfold CfgConfig.getGraylogPort
  simp only [cfgHandlerType_cases]
  by_cases h1 : cfg.HanlderType = "udp" <;>
    by_cases h2 : cfg.HanlderType = "tls" <;>
      simp_all [graylog.UDP, graylog.TCP]

/-- Claim C5: whenever useTLS returns without aborting (the transport
selector is non-empty), its boolean result agrees with the handler type
being graylog.TCP, for both adapters. -/
theorem C5_useTLS_agrees (env : Env) (cfg : CfgConfig) (b c : Bool)
    (hb : EnvConfig.useTLS env = Except.ok b)
    (hc : CfgConfig.useTLS cfg = Except.ok c) :
    (b = true ↔ EnvConfig.getGraylogHandlerType env = graylog.TCP) ∧
    (c = true ↔ CfgConfig.getGraylogHandlerType cfg = graylog.TCP) := by
  constructor
  · rw [envUseTLS_cases] at hb
    by_cases h0 : env "GRAYLOG_HANDLER_TYPE" = ""
    · simp [h0] at hb
    · simp only [h0, if_neg, if_false, reduceIte] at hb
      rw [envHandlerType_cases]
      by_cases h1 : env "GRAYLOG_HANDLER_TYPE" = "tls" <;>
        by_cases h2 : env "GRAYLOG_HANDLER_TYPE" = "udp" <;>
          simp_all [graylog.UDP, graylog.TCP]
  · rw [cfgUseTLS_cases] at hc
    by_cases h0 : cfg.HanlderType = ""
    · simp [h0] at hc
    · simp only [h0, if_neg, if_false, reduceIte] at hc
      rw [cfgHandlerType_cases]
      by_cases h1 : cfg.HanlderType = "tls" <;>
        by_cases h2 : cfg.HanlderType = "udp" <;>
          simp_all [graylog.UDP, graylog.TCP]

/-- Claim C5, witness: with the selector set to "tls", EnvConfig.useTLS
yields true and the handler type is graylog.TCP; on the default record
(selector "udp") CfgConfig.useTLS yields false and the handler type is
not graylog.TCP. -/
theorem C5_useTLS_agrees_witness :
    (true = true ↔
        EnvConfig.getGraylogHandlerType (fun _ => "tls") = graylog.TCP) ∧
    (false = true ↔
        CfgConfig.getGraylogHandlerType NewDefaultCfgConfig = graylog.TCP) :=
  C5_useTLS_agrees (fun _ => "tls") NewDefaultCfgConfig true false rfl rfl

/-- Claim C6: for both adapters the port query follows the resolved
transport: UDP reads the UDP-port source and TLS-with-TCP reads the
TLS-port source (for EnvConfig, via parsing the respective variable). -/
theorem C6_port_selection (env1 env2 : Env) (cfg : CfgConfig) (n m : Nat)
    (h1 : EnvConfig.getGraylogHandlerType env1 = graylog.UDP)
    (hp1 : parseUint10_32 (env1 "GRAYLOG_UDP_PORT") = some n)
    (h2 : EnvConfig.getGraylogHandlerType env2 = graylog.TCP)
    (hp2 : parseUint10_32 (env2 "GRAYLOG_TLS_PORT") = some m) :
    EnvConfig.getGraylogPort env1 = Except.ok n ∧
    EnvConfig.getGraylogPort env2 = Except.ok m ∧
    (CfgConfig.getGraylogHandlerType cfg = graylog.UDP →
        CfgConfig.getGraylogPort cfg = cfg.UDPPort) ∧
    (CfgConfig.getGraylogHandlerType cfg = graylog.TCP →
        CfgConfig.getGraylogPort cfg = cfg.TLSPort) := by
  refine ⟨?_, ?_, fun h => ?_, fun h => ?_⟩
  · simp [EnvConfig.getGraylogPort, h1, hp1, graylog.UDP, graylog.TCP]
  · simp [EnvConfig.getGraylogPort, h2, hp2, graylog.UDP, graylog.TCP]
  · simp [CfgConfig.getGraylogPort, h, graylog.UDP, graylog.TCP]
  · simp [CfgConfig.getGraylogPort, h, graylog.UDP, graylog.TCP]

/-- Claim C6, witness: handler "udp" with udpPort 5000 yields port 5000
and handler "tls" with tlsPort 6000 yields port 6000, on both
adapters. -/
theorem C6_port_selection_witness :
    EnvConfig.getGraylogPort
        (fun v => if v = "GRAYLOG_HANDLER_TYPE" then "udp" else "5000") =
      Except.ok 5000 ∧
    EnvConfig.getGraylogPort
        (fun v => if v = "GRAYLOG_HANDLER_TYPE" then "tls" else "6000") =
      Except.ok 6000 ∧
    CfgConfig.getGraylogPort
        { NewDefaultCfgConfig with HanlderType := "udp", UDPPort := 5000 } =
      5000 ∧
    CfgConfig.getGraylogPort
        { NewDefaultCfgConfig with HanlderType := "tls", TLSPort := 6000 } =
      6000 := by
  have h := C6_port_selection
      (fun v => if v = "GRAYLOG_HANDLER_TYPE" then "udp" else "5000")
      (fun v => if v = "GRAYLOG_HANDLER_TYPE" then "tls" else "6000")
      { NewDefaultCfgConfig with HanlderType := "udp", UDPPort := 5000 }
      5000 6000 (by decide) (by decide) (by decide) (by decide)
  have h2 := C6_port_selection
      (fun v => if v = "GRAYLOG_HANDLER_TYPE" then "udp" else "5000")
      (fun v => if v = "GRAYLOG_HANDLER_TYPE" then "tls" else "6000")
      { NewDefaultCfgConfig with HanlderType := "tls", TLSPort := 6000 }
      5000 6000 (by decide) (by decide) (by decide) (by decide)
  exact ⟨h.1, h.2.1, h.2.2.1 (by decide), h2.2.2.2 (by decide)⟩

/-- Claim C7: for both adapters the TLS-timeout query returns 3 seconds
when its source is empty, N seconds when the source parses as the
integer N, and aborts with the parse-failure message when the source is
non-empty but unparseable. -/
theorem C7_tlsTimeout (env : Env) (cfg : CfgConfig) (n m : Int) :
    (env "GRAYLOG_TLS_TIMEOUT_SECS" = "" →
        EnvConfig.getGraylogTLSTimeout env = Except.ok (timeSecond * 3)) ∧
    (parseInt10_32 (env "GRAYLOG_TLS_TIMEOUT_SECS") = some n →
        EnvConfig.getGraylogTLSTimeout env = Except.ok (timeSecond * n)) ∧
    (env "GRAYLOG_TLS_TIMEOUT_SECS" ≠ "" →
        parseInt10_32 (env "GRAYLOG_TLS_TIMEOUT_SECS") = none →
        EnvConfig.getGraylogTLSTimeout env =
          Except.error "invalid GRAYLOG_TLS_TIMEOUT_SECS could not parse int") ∧
    (cfg.TLSTimeoutSeconds = "" →
        CfgConfig.getGraylogTLSTimeout cfg = Except.ok (timeSecond * 3)) ∧
    (parseInt10_32 cfg.TLSTimeoutSeconds = some m →
        CfgConfig.getGraylogTLSTimeout cfg = Except.ok (timeSecond * m)) ∧
    (cfg.TLSTimeoutSeconds ≠ "" →
        parseInt10_32 cfg.TLSTimeoutSeconds = none →
        CfgConfig.getGraylogTLSTimeout cfg =
          Except.error "invalid GRAYLOG_TLS_TIMEOUT_SECS could not parse int") := by
  refine ⟨fun h0 => ?_, fun hp => ?_, fun h0 hp => ?_,
    fun h0 => ?_, fun hp => ?_, fun h0 hp => ?_⟩
  · rw [envTimeout_cases, if_pos h0]
  · by_cases h0 : env "GRAYLOG_TLS_TIMEOUT_SECS" = ""
    · rw [h0] at hp
      rw [show parseInt10_32 "" = none from rfl] at hp
      exact Option.noConfusion hp
    · rw [envTimeout_cases, if_neg h0, hp]
  · rw [envTimeout_cases, if_neg h0, hp]
  · rw [cfgTimeout_cases, if_pos h0]
  · by_cases h0 : cfg.TLSTimeoutSeconds = ""
    · rw [h0] at hp
      rw [show parseInt10_32 "" = none from rfl] at hp
      exact Option.noConfusion hp
    · rw [cfgTimeout_cases, if_neg h0, hp]
  · rw [cfgTimeout_cases, if_neg h0, hp]

/-- Claim C7, witness: unset yields 3 seconds, "10" yields 10 seconds,
and "abc" aborts, on both adapters. -/
theorem C7_tlsTimeout_witness :
    EnvConfig.getGraylogTLSTimeout (fun _ => "") = Except.ok (timeSecond * 3) ∧
    EnvConfig.getGraylogTLSTimeout (fun _ => "10") =
      Except.ok (timeSecond * 10) ∧
    EnvConfig.getGraylogTLSTimeout (fun _ => "abc") =
      Except.error "invalid GRAYLOG_TLS_TIMEOUT_SECS could not parse int" ∧
    CfgConfig.getGraylogTLSTimeout
        { NewDefaultCfgConfig with TLSTimeoutSeconds := "" } =
      Except.ok (timeSecond * 3) ∧
    CfgConfig.getGraylogTLSTimeout
        { NewDefaultCfgConfig with TLSTimeoutSeconds := "10" } =
      Except.ok (timeSecond * 10) ∧
    CfgConfig.getGraylogTLSTimeout
        { NewDefaultCfgConfig with TLSTimeoutSeconds := "abc" } =
      Except.error "invalid GRAYLOG_TLS_TIMEOUT_SECS could not parse int" := by
  refine ⟨(C7_tlsTimeout (fun _ => "") NewDefaultCfgConfig 0 0).1 rfl,
    (C7_tlsTimeout (fun _ => "10") NewDefaultCfgConfig 10 0).2.1 (by decide),
    (C7_tlsTimeout (fun _ => "abc") NewDefaultCfgConfig 0 0).2.2.1
      (by decide) (by decide),
    (C7_tlsTimeout (fun _ => "")
        { NewDefaultCfgConfig with TLSTimeoutSeconds := "" } 0 0).2.2.2.1 rfl,
    (C7_tlsTimeout (fun _ => "")
        { NewDefaultCfgConfig with TLSTimeoutSeconds := "10" } 0 10).2.2.2.2.1
      (by decide),
    (C7_tlsTimeout (fun _ => "")
        { NewDefaultCfgConfig with TLSTimeoutSeconds := "abc" } 0 0).2.2.2.2.2
      (by decide) (by decide)⟩

/-- Claim C8: for both adapters, useTLS aborts (with the message
"GRAYLOG_HANDLER_TYPE env not set") exactly when its source is the empty
string, and otherwise returns the decision of whether the source equals
"tls". -/
theorem C8_useTLS_fatal (env : Env) (cfg : CfgConfig) :
    (env "GRAYLOG_HANDLER_TYPE" = "" →
        EnvConfig.useTLS env =
          Except.error "GRAYLOG_HANDLER_TYPE env not set") ∧
    (env "GRAYLOG_HANDLER_TYPE" ≠ "" →
        EnvConfig.useTLS env =
          Except.ok (decide (env "GRAYLOG_HANDLER_TYPE" = "tls"))) ∧
    (cfg.HanlderType = "" →
        CfgConfig.useTLS cfg =
          Except.error "GRAYLOG_HANDLER_TYPE env not set") ∧
    (cfg.HanlderType ≠ "" →
        CfgConfig.useTLS cfg = Except.ok (decide (cfg.HanlderType = "tls"))) := by
  refine ⟨fun h0 => ?_, fun h0 => ?_, fun h0 => ?_, fun h0 => ?_⟩
  · rw [envUseTLS_cases, if_pos h0]
  · rw [envUseTLS_cases, if_neg h0]
  · rw [cfgUseTLS_cases, if_pos h0]
  · rw [cfgUseTLS_cases, if_neg h0]

/-- Claim C8, witness: empty selectors abort on both adapters; "tls"
yields true and "udp" yields false. -/
theorem C8_useTLS_fatal_witness :
    EnvConfig.useTLS (fun _ => "") =
      Except.error "GRAYLOG_HANDLER_TYPE env not set" ∧
    EnvConfig.useTLS (fun _ => "tls") = Except.ok true ∧
    CfgConfig.useTLS { NewDefaultCfgConfig with HanlderType := "" } =
      Except.error "GRAYLOG_HANDLER_TYPE env not set" ∧
    CfgConfig.useTLS NewDefaultCfgConfig = Except.ok false := by
  refine ⟨(C8_useTLS_fatal (fun _ => "") NewDefaultCfgConfig).1 rfl, ?_, ?_, ?_⟩
  · exact (C8_useTLS_fatal (fun _ => "tls") NewDefaultCfgConfig).2.1 (by decide)
  · exact (C8_useTLS_fatal (fun _ => "")
      { NewDefaultCfgConfig with HanlderType := "" }).2.2.1 rfl
  · exact (C8_useTLS_fatal (fun _ => "") NewDefaultCfgConfig).2.2.2 (by decide)

/-- Claim C9: the default record yields appName "pracing", envName
"pracing", UDP transport, host "127.0.0.1", port 12001, a 3-second TLS
timeout, log level 4 and JSON formatting enabled. -/
theorem C9_default_record :
    CfgConfig.getGraylogAppName NewDefaultCfgConfig = "pracing" ∧
    CfgConfig.getGraylogLogEnvName NewDefaultCfgConfig = "pracing" ∧
    CfgConfig.getGraylogHandlerType NewDefaultCfgConfig = graylog.UDP ∧
    CfgConfig.getGraylogHost NewDefaultCfgConfig = "127.0.0.1" ∧
    CfgConfig.getGraylogPort NewDefaultCfgConfig = 12001 ∧
    CfgConfig.getGraylogTLSTimeout NewDefaultCfgConfig =
      Except.ok (timeSecond * 3) ∧
    CfgConfig.getGraylogLogLevel NewDefaultCfgConfig = 4 ∧
    CfgConfig.enableJSONFormatter NewDefaultCfgConfig = true :=
  ⟨rfl, rfl, rfl, rfl, rfl, rfl, rfl, rfl⟩

/-- Claim C10: when the transport selector is neither "udp" nor "tls"
(in particular when it is unset), EnvConfig.getGraylogPort ignores the
port variables entirely (the environment is arbitrary elsewhere) and
returns 12201, the parse of the hard-coded "12201", without aborting. -/
theorem C10_port_default_12201 (env : Env)
    (h1 : env "GRAYLOG_HANDLER_TYPE" ≠ "udp")
    (h2 : env "GRAYLOG_HANDLER_TYPE" ≠ "tls") :
    EnvConfig.getGraylogPort env = Except.ok 12201 := by
  have hh : EnvConfig.getGraylogHandlerType env = "tls" := by
    rw [envHandlerType_cases, if_neg h1, if_neg h2]
  have hp : parseUint10_32 "12201" = some 12201 := by decide
  simp [EnvConfig.getGraylogPort, hh, hp, graylog.UDP, graylog.TCP]

/-- Claim C10, witness: with the selector unset and every other
variable (including both port variables) set to the unparseable string
"garbage", the port query still returns 12201. -/
theorem C10_port_default_12201_witness :
    EnvConfig.getGraylogPort
        (fun v => if v = "GRAYLOG_HANDLER_TYPE" then "" else "garbage") =
      Except.ok 12201 :=
  C10_port_default_12201
    (fun v => if v = "GRAYLOG_HANDLER_TYPE" then "" else "garbage")
    (by decide) (by decide)

end Gzap
